import Mathlib

/-!
Verification of nixos-conjurer (Rust) against its natural-language
specification, via a shallow embedding of the relevant source files.

Conventions of the embedding:
  * Rust `Result<T, Error>` becomes `Except Error T`; the unit-error
    `Result<T, ()>` of `app.rs` becomes `Except Unit T`.
  * OS interactions (waitpid, kill, mount, umount, unshare, file writes,
    subprocess execution, channel send/recv) are modelled by explicit
    oracle arguments giving each call's outcome, and every attempted
    call is recorded in a returned trace list, so that ordering and
    at-most-once properties can be stated about the trace.
  * Machine integers (pids, exit statuses, uids/gids) are `Nat`;
    byte sequences (subprocess stdout) are `List Char`, one `Char`
    per byte, matching the Rust code's byte-wise `*c as char` tests.
-/

/- ===== process.rs ===== -/

/-- `process::Error { msg: String }`. -/
structure ProcError where
  msg : String
deriving DecidableEq, Repr

/-- `type ProcResult<T> = Result<T, Error>`. -/
abbrev ProcResult (T : Type) := Except ProcError T

/-- Signals of `nix::sys::signal::Signal` used by `process.rs`. -/
inductive Signal where
  | SIGSTOP
  | SIGCONT
  | SIGTSTP
  | SIGKILL
  | SIGTERM
  | SIGINT
  | SIGHUP
deriving DecidableEq, Repr

/-- `Display`/`as_str` rendering of a `nix` signal, as interpolated by
`format!` in the error messages of `wait_for_child`. -/
def signalStr : Signal → String
  | .SIGSTOP => "SIGSTOP"
  | .SIGCONT => "SIGCONT"
  | .SIGTSTP => "SIGTSTP"
  | .SIGKILL => "SIGKILL"
  | .SIGTERM => "SIGTERM"
  | .SIGINT => "SIGINT"
  | .SIGHUP => "SIGHUP"

/-- `nix::sys::wait::WaitStatus`, the constructors observable from
`waitpid(child, WUNTRACED)`. -/
inductive WaitStatus where
  | Exited (pid : Nat) (status : Nat)
  | Signaled (pid : Nat) (signal : Signal) (coreDumped : Bool)
  | Stopped (pid : Nat) (signal : Signal)
  | Continued (pid : Nat)
  | StillAlive
deriving DecidableEq, Repr

/-- `Debug` rendering of a `WaitStatus`, as interpolated by `{:?}` in the
"unexpected wait event" message of `wait_for_child`. -/
def waitStatusDebug : WaitStatus → String
  | .Exited p s => "Exited(Pid(" ++ toString p ++ "), " ++ toString s ++ ")"
  | .Signaled p sig c =>
      "Signaled(Pid(" ++ toString p ++ "), " ++ signalStr sig ++ ", "
        ++ (if c then "true" else "false") ++ ")"
  | .Stopped p sig => "Stopped(Pid(" ++ toString p ++ "), " ++ signalStr sig ++ ")"
  | .Continued p => "Continued(Pid(" ++ toString p ++ "))"
  | .StillAlive => "StillAlive"

/-- The parent's view of the one-shot channel: `rx.try_recv()` either
delivers the value the child sent (itself a `ProcResult`) or fails with a
channel error rendered as a string. -/
abbrev RecvResult (T : Type) := Except String (ProcResult T)

/-- `read_child_status(rx)` from `process.rs`: deliver the received value
verbatim, or wrap a channel failure into a `ProcError`. -/
def read_child_status {T : Type} (recv : RecvResult T) : ProcResult T :=
  match recv with
  | .ok s => s
  | .error e => .error ⟨"unable to read the child process result: " ++ e⟩

/-- Outcome of one iteration of the `wait_for_child` loop body: either the
function returns with a result, or the loop runs another iteration. -/
inductive StepOut (T : Type) where
  | done (r : ProcResult T)
  | again

/-- One iteration of the `loop` in `wait_for_child` (`process.rs`), as a
function of the `waitpid` observation `w` for this iteration.  `kill` is
the oracle for `nix::sys::signal::kill`; the second component of the
result records every `kill(pid, sig)` call attempted, in order.  The match
arms are in the source's order, so `Exited(_, 0)` shadows the later
`Exited(pid, status)` arm, and `Signaled(child, SIGSTOP, _)` shadows the
general `Signaled(_, signal, _)` arm. -/
def wait_step {T : Type} (recv : RecvResult T) (self_pid : Nat)
    (kill : Nat → Signal → Except String Unit)
    (w : Except String WaitStatus) : StepOut T × List (Nat × Signal) :=
  match w with
  | .ok (.Exited _ 0) => (.done (read_child_status recv), [])
  | .ok (.Signaled child .SIGSTOP _) =>
      (.again, [(self_pid, .SIGSTOP), (child, .SIGCONT)])
  | .ok (.Signaled _ signal _) =>
      match kill self_pid signal with
      | .error e =>
          (.done (.error ⟨"failed to send the " ++ signalStr signal
            ++ " signal to PID " ++ toString self_pid ++ ": " ++ e⟩),
           [(self_pid, signal)])
      | .ok _ => (.again, [(self_pid, signal)])
  | .ok (.Exited pid status) =>
      match read_child_status recv with
      | .error s =>
          (.done (.error ⟨"child process `" ++ toString pid
            ++ "` returned non-zero status " ++ toString status ++ ": " ++ s.msg⟩), [])
      | .ok _ =>
          (.done (.error ⟨"child process `" ++ toString pid
            ++ "` returned non-zero status " ++ toString status⟩), [])
  | .ok what =>
      (.done (.error ⟨"unexpected wait event happend: " ++ waitStatusDebug what⟩), [])
  | .error e =>
      (.done (.error ⟨"failed to wait for child process to complete: " ++ e⟩), [])

/-- `wait_for_child(rx, child_pid)` from `process.rs`: the `loop` consumes
successive `waitpid` observations from `waits`; `none` means the supplied
observations ran out with the loop still blocked.  The trace collects all
`kill` calls attempted across iterations. -/
def wait_for_child {T : Type} (recv : RecvResult T) (self_pid : Nat)
    (kill : Nat → Signal → Except String Unit) :
    List (Except String WaitStatus) → Option (ProcResult T) × List (Nat × Signal)
  | [] => (none, [])
  | w :: ws =>
      match wait_step recv self_pid kill w with
      | (.done r, acts) => (some r, acts)
      | (.again, acts) =>
          let rest := wait_for_child recv self_pid kill ws
          (rest.1, acts ++ rest.2)

/-- `run_child(tx, f)` from `process.rs`: the child sends `Ok(f())` over
the channel and exits with status `0` when the send succeeded and `1`
otherwise.  Returns the exit status together with the value offered to
the channel. -/
def run_child {T : Type} (f : Unit → T) (send : ProcResult T → Except String Unit) :
    Nat × ProcResult T :=
  let v : ProcResult T := .ok (f ())
  match send v with
  | .error _ => (1, v)
  | .ok _ => (0, v)

/-- `run_forked(f)` from `process.rs`, in the straight-line execution
where the only `waitpid` observation is the child's own exit:
`chanRes`/`forkRes` are the outcomes of `channel()` and `fork()`, and
`sendRes` is the outcome of the child's `tx.send`.  A one-shot channel is
assumed faithful: the parent's `try_recv` yields exactly the value the
child sent when the send succeeded, and fails with `chanErr` otherwise. -/
def run_forked {T : Type} (f : Unit → T) (chanRes : Except String Unit)
    (forkRes : Except String Nat) (sendRes : Except String Unit)
    (chanErr : String) (self_pid : Nat)
    (kill : Nat → Signal → Except String Unit) : Option (ProcResult T) :=
  match chanRes with
  | .error e =>
      some (.error ⟨"failed to create a channel to communicate with the child process: " ++ e⟩)
  | .ok _ =>
    match forkRes with
    | .error e => some (.error ⟨"failed to fork a child process: " ++ e⟩)
    | .ok child =>
        let child_run := run_child f (fun _ => sendRes)
        let recv : RecvResult T :=
          match sendRes with
          | .ok _ => .ok child_run.2
          | .error _ => .error chanErr
        (wait_for_child recv self_pid kill [.ok (.Exited child child_run.1)]).1

/- ===== mount.rs ===== -/

/-- The mount-table syscalls issued by `mount.rs`. `flags` carries the
`MsFlags` bits by name. -/
inductive MntCall where
  | mountCall (source : Option String) (target : String)
      (fstype : Option String) (flags : List String) (data : Option String)
  | umountCall (target : String)
deriving DecidableEq, Repr

/-- `struct Mount { path: PathBuf }` from `mount.rs`. -/
structure Mount where
  path : String
deriving DecidableEq, Repr

/-- `Mount::mount(source, target, fstype, flags, data)` from `mount.rs`:
issue exactly one `mount(2)` call (recorded in the trace); on success the
guard remembers the target path.  `os` is the syscall outcome oracle. -/
def Mount.mount_ (os : MntCall → Except Nat Unit) (source : Option String)
    (target : String) (fstype : Option String) (flags : Option (List String))
    (data : Option String) : Except Nat Mount × List MntCall :=
  let call := MntCall.mountCall source target fstype
    (match flags with | some f => f | none => []) data
  match os call with
  | .error e => (.error e, [call])
  | .ok _ => (.ok ⟨target⟩, [call])

/-- `Mount::bind(source, target)` from `mount.rs`: `Mount::mount` with
fstype `"none"`, flags `MS_BIND | MS_PRIVATE | MS_REC`, no data. -/
def Mount.bind (os : MntCall → Except Nat Unit) (source target : String) :
    Except Nat Mount × List MntCall :=
  Mount.mount_ os (some source) target (some "none")
    (some ["MS_BIND", "MS_PRIVATE", "MS_REC"]) none

/-- `impl Drop for Mount` from `mount.rs`: `let _ = umount(&self.path);` —
issue exactly one `umount(2)` call on the recorded target and discard its
outcome. -/
def Mount.drop_ (os : MntCall → Except Nat Unit) (m : Mount) : Unit × List MntCall :=
  let call := MntCall.umountCall m.path
  match os call with
  | .ok _ => ((), [call])
  | .error _ => ((), [call])

/- ===== setup_namespace (builder.rs / app.rs) ===== -/

/-- The OS-level operations attempted by `setup_namespace`, in the order
the source attempts them.  `createFile`/`writeFile` are the two fallible
halves of `File::create` + `write_all`. -/
inductive NsOp where
  | unshareNs (flags : List String)
  | createDirAll (path : String)
  | bindMount (source target : String)
  | setCurrentDir (path : String)
  | pivotRootOp (newRoot putOld : String)
  | chrootOp (path : String)
  | createFile (path : String)
  | writeFile (path : String) (contents : String)
deriving DecidableEq, Repr

/-- Run a straight-line sequence of fallible operations with early return:
on the first operation whose oracle outcome is an error, stop (that
operation is the last one attempted); the trace records every attempted
operation in order.  This is the shape of the `if let Err(e) = ... err!`
cascade in `setup_namespace`, whose `err!` macro returns `Err(())`. -/
def runOps (os : NsOp → Except String Unit) : List NsOp → Except Unit Unit × List NsOp
  | [] => (.ok (), [])
  | op :: ops =>
      match os op with
      | .error _ => (.error (), [op])
      | .ok _ =>
          let rest := runOps os ops
          (rest.1, op :: rest.2)

/-- The operation sequence of `setup_namespace(root_path)` transcribed
from `builder.rs` lines 220-363 (identical in `app.rs` lines 162-305):
unshare user/mount/pid/uts/ipc; create `new_root` and `old_root`;
bind the ephemeral root onto `new_root`, then `/proc`, `/sys`, `/dev`
under it; chdir to `new_root`; `pivot_root(".", "old_root")`;
`chroot("/")`; chdir to `/`; write `deny` to `/proc/self/setgroups`;
write the single-entry uid map; write the single-entry gid map. -/
def setup_ops (root_path : String) (uid gid : Nat) : List NsOp :=
  [ .unshareNs ["CLONE_NEWUSER", "CLONE_NEWNS", "CLONE_NEWPID", "CLONE_NEWUTS", "CLONE_NEWIPC"],
    .createDirAll (root_path ++ "/new_root"),
    .createDirAll (root_path ++ "/old_root"),
    .bindMount root_path (root_path ++ "/new_root"),
    .bindMount "/proc" (root_path ++ "/new_root/proc"),
    .bindMount "/sys" (root_path ++ "/new_root/sys"),
    .bindMount "/dev" (root_path ++ "/new_root/dev"),
    .setCurrentDir (root_path ++ "/new_root"),
    .pivotRootOp "." "old_root",
    .chrootOp "/",
    .setCurrentDir "/",
    .createFile "/proc/self/setgroups",
    .writeFile "/proc/self/setgroups" "deny",
    .createFile "/proc/self/uid_map",
    .writeFile "/proc/self/uid_map" ("0 " ++ toString uid ++ " 1"),
    .createFile "/proc/self/gid_map",
    .writeFile "/proc/self/gid_map" ("0 " ++ toString gid ++ " 1") ]

/-- `setup_namespace(root_path)`: run the transcribed operation sequence
with early return; `uid`/`gid` are the results of `getuid()`/`getgid()`
read at entry. -/
def setup_namespace (os : NsOp → Except String Unit) (root_path : String)
    (uid gid : Nat) : Except Unit Unit × List NsOp :=
  runOps os (setup_ops root_path uid gid)

/-- Boolean recognizer: a write of any contents to `/proc/self/uid_map`. -/
def isUidMapWrite : NsOp → Bool
  | .writeFile "/proc/self/uid_map" _ => true
  | _ => false

/-- Boolean recognizer: a write of any contents to `/proc/self/gid_map`. -/
def isGidMapWrite : NsOp → Bool
  | .writeFile "/proc/self/gid_map" _ => true
  | _ => false

/-- Boolean recognizer: the write of `deny` to `/proc/self/setgroups`. -/
def isSetgroupsDeny : NsOp → Bool
  | .writeFile "/proc/self/setgroups" "deny" => true
  | _ => false

/-- `true` iff no gid-map write occurs before the first setgroups-deny
write in the trace. -/
def denyBeforeGid : List NsOp → Bool
  | [] => true
  | op :: rest =>
      if isSetgroupsDeny op then true
      else !isGidMapWrite op && denyBeforeGid rest

/- ===== config.rs ===== -/

/-- `config::Error { message: String }`. -/
structure CfgError where
  message : String
deriving DecidableEq, Repr

/-- `struct Configuration` from `config.rs` (field order as in source;
optional paths are strings here). -/
structure Configuration where
  output_path : Option String
  output_format : String
  nix_configuration_path : Option String
  nix_configuration : Option String
deriving DecidableEq, Repr

/-- `Configuration::validate` from `config.rs`: reject a document that
sets both `nix_configuration` and `nix_configuration_path`.  The message
is the Rust string literal with its `\`-line-continuation, which elides
the newline and the following indentation, leaving no space between
"`nix_configuration`" and "and". -/
def Configuration.validate (c : Configuration) : Except CfgError Unit :=
  match c.nix_configuration with
  | some _ =>
      match c.nix_configuration_path with
      | some _ =>
          .error ⟨"Configuration file contains both `nix_configuration`and `nix_configuration_path` options"⟩
      | none => .ok ()
  | none => .ok ()

/-- `open_config_file(path)` from `config.rs`; `openRes` is the outcome of
`File::open`. -/
def open_config_file (openRes : Except String Unit) (path : String) :
    Except CfgError Unit :=
  match openRes with
  | .ok _ => .ok ()
  | .error e =>
      .error ⟨"Failed to open configuration file `" ++ path ++ "`: " ++ e⟩

/-- `parse_config_file(file)` from `config.rs`; `parseRes` is the outcome
of `serde_yaml::from_reader`. -/
def parse_config_file (parseRes : Except String Configuration) :
    Except CfgError Configuration :=
  match parseRes with
  | .ok c => .ok c
  | .error e => .error ⟨"Failed to parse configuration file: " ++ e⟩

/-- `Configuration::load(path)` from `config.rs`: open, parse, validate,
then return the configuration. -/
def Configuration.load (openRes : Except String Unit)
    (parseRes : Except String Configuration) (path : String) :
    Except CfgError Configuration := do
  let _ ← open_config_file openRes path
  let conf ← parse_config_file parseRes
  let _ ← conf.validate
  pure conf

/-- Modelled from the spec: the current-generation application
initialisation (referenced by `main.rs` as `app::init_app(&args)` but
absent from `src/`, where only the older generation of `app.rs` is
present) loads and validates the configuration first, and only when the
load succeeds does any build work — ephemeral-root creation, download,
extraction, sandbox entry — begin; a load error aborts with the empty
work trace.  The stage names follow `Builder::create_chroot` and
`App::run`. -/
def app_with_config (openRes : Except String Unit)
    (parseRes : Except String Configuration) (path : String) :
    Except CfgError (List String) :=
  match Configuration.load openRes parseRes path with
  | .error e => .error e
  | .ok _ =>
      .ok ["create_build_directory", "download_rootfs_tarball",
           "extract_rootfs_tarball", "setup_namespace", "run_build_process",
           "pull_image"]

/- ===== nixos_generate output parsing (app.rs / builder.rs) ===== -/

/-- The captured `std::process::Output` of a checked command invocation:
only the stdout bytes matter to the parsing code. -/
structure CmdOutput where
  stdout : List Char
deriving DecidableEq, Repr

/-- `nixos_generate()` from `app.rs` lines 411-431 (the parsing in
`Builder::nixos_generate`, `builder.rs` lines 145-161, is byte-for-byte
the same): on command failure return `Err(())`; otherwise build the path
from `stdout.into_iter().skip(1).filter(|c| *c as char != '\n')`. -/
def nixos_generate (cmdRes : ProcResult CmdOutput) : Except Unit (List Char) :=
  match cmdRes with
  | .error _ => .error ()
  | .ok result =>
      let output_path := (result.stdout.drop 1).filter (fun c => c != '\n')
      .ok output_path

/-- The spec's stated parsing convention, written from its words for
comparison with `nixos_generate`: the first line of standard output, with
its leading path separator stripped and its trailing newline characters
removed (taking the first line already excludes the newline). -/
def spec_parse_artifact (s : List Char) : List Char :=
  match s.takeWhile (fun c => c != '\n') with
  | '/' :: rest => rest
  | firstLine => firstLine

/- ===== process structure of a build (app.rs) ===== -/

/-- One step of the orchestration, keeping only what matters for the
process-count model: an in-process action, or a `run_forked` whose body
is executed by a freshly forked child while the caller waits. -/
inductive BuildStep where
  | action (name : String)
  | forked (body : List BuildStep)

mutual

/-- Maximum number of live processes while one process executes a step:
a `run_forked` keeps the caller alive waiting while the child runs. -/
def stepLive : BuildStep → Nat
  | .action _ => 1
  | .forked body => 1 + stepsLive body

/-- Maximum number of live processes while one process executes a step
sequence (at least the executing process itself). -/
def stepsLive : List BuildStep → Nat
  | [] => 1
  | s :: rest => max (stepLive s) (stepsLive rest)

end

/-- The body of `run_build_process()` (`app.rs` lines 140-160): six
in-process stages, no further fork. -/
def run_build_process_steps : List BuildStep :=
  [.action "fix_resolv_conf", .action "add_repositories",
   .action "install_nix", .action "nix_update_channels",
   .action "install_nixos_generate", .action "nixos_generate"]

/-- The body of `build_image(root_path)` (`app.rs` lines 126-138):
`setup_namespace`, then `run_forked(|| run_build_process())`. -/
def build_image_steps : List BuildStep :=
  [.action "setup_namespace", .forked run_build_process_steps]

/-- The body of `App::run` (`app.rs` lines 52-76): temp dir, download,
extract, then `run_forked(|| build_image(root_dir.path()))`, then pull. -/
def app_run_steps : List BuildStep :=
  [.action "make_temp_dir", .action "download_rootfs_tarball",
   .action "extract_rootfs_tarball", .forked build_image_steps,
   .action "pull_image"]

/- ===== theorems ===== -/

/-- C4: for every work closure `f` (its result transportable — modelled by
the channel carrying the value exactly), when the child's send succeeds
the child exits with status 0 and `run_forked` returns exactly the value
`f()` produced in the child; when the send fails the child exits with
status 1.  The child offers `Ok(f())` to the channel in both cases, so
any failure inside `f` is already a value in the outcome. -/
theorem c4_child_exit_and_result_roundtrip {T : Type} (f : Unit → T)
    (child_pid self_pid : Nat) (kill : Nat → Signal → Except String Unit)
    (chanErr : String) :
    (run_child f (fun _ => .ok ())).1 = 0
    ∧ (run_child f (fun _ => .ok ())).2 = Except.ok (f ())
    ∧ (∀ e : String, (run_child f (fun _ => .error e)).1 = 1)
    ∧ run_forked f (.ok ()) (.ok child_pid) (.ok ()) chanErr self_pid kill
        = some (.ok (f ())) :=
  ⟨rfl, rfl, fun _ => rfl, rfl⟩

/-- C2 counterexample: the claim requires the two failure origins —
subprocess-reported error versus unreadable channel — to remain
distinguishable in the error value, and the generic status error to be
returned exactly when the channel read fails.  At child pid 5, exit
status 1, a child-reported error whose message happens to read
"unable to read the child process result: closed" and an unreadable
channel whose failure renders as "closed" produce identical error
values, and the failing read yields the annotated — not the generic —
status error. -/
theorem c2_origins_collapse :
    wait_step (T := Nat)
        (.ok (.error ⟨"unable to read the child process result: closed"⟩))
        2 (fun _ _ => .ok ()) (.ok (.Exited 5 1))
      = wait_step (T := Nat) (.error "closed") 2 (fun _ _ => .ok ())
          (.ok (.Exited 5 1))
    ∧ (Except.ok (Except.error ⟨"unable to read the child process result: closed"⟩) : RecvResult Nat)
        ≠ .error "closed"
    ∧ wait_step (T := Nat) (.error "closed") 2 (fun _ _ => .ok ()) (.ok (.Exited 5 1))
        = (.done (.error ⟨"child process `5` returned non-zero status 1: unable to read the child process result: closed"⟩), [])
    ∧ ("child process `5` returned non-zero status 1: unable to read the child process result: closed" : String)
        ≠ "child process `5` returned non-zero status 1" := by
  refine ⟨rfl, by simp, rfl, by decide⟩

/-- C2 (amended): whenever the child exits with a nonzero status the
parent attempts to read the one-shot channel; when the read yields an
error value — either the error the child sent or the synthesized
channel-unreadable error — the parent returns the "child ... returned
non-zero status N" error with that message appended, and only when the
read yields a success value does it return the bare status error; the
two failure origins are folded into one message shape, distinguishable
only through the embedded text. -/
theorem c2_nonzero_exit_reads_channel {T : Type} (pid status self_pid : Nat)
    (kill : Nat → Signal → Except String Unit) (h : status ≠ 0) :
    (∀ s : ProcError,
      wait_step (T := T) (.ok (.error s)) self_pid kill (.ok (.Exited pid status))
        = (.done (.error ⟨"child process `" ++ toString pid
            ++ "` returned non-zero status " ++ toString status ++ ": " ++ s.msg⟩), []))
    ∧ (∀ e : String,
      wait_step (T := T) (.error e) self_pid kill (.ok (.Exited pid status))
        = (.done (.error ⟨"child process `" ++ toString pid
            ++ "` returned non-zero status " ++ toString status ++ ": "
            ++ ("unable to read the child process result: " ++ e)⟩), []))
    ∧ (∀ v : T,
      wait_step (T := T) (.ok (.ok v)) self_pid kill (.ok (.Exited pid status))
        = (.done (.error ⟨"child process `" ++ toString pid
            ++ "` returned non-zero status " ++ toString status⟩), [])) := by
  match status, h with
  | Nat.succ n, _ => exact ⟨fun s => rfl, fun e => rfl, fun v => rfl⟩

/-- C2 witness: the amended behavior at child pid 5, status 1, with an
unreadable channel rendering as "closed". -/
theorem c2_nonzero_exit_reads_channel_witness :
    wait_step (T := Nat) (.error "closed") 2 (fun _ _ => .ok ())
        (.ok (.Exited 5 1))
      = (.done (.error ⟨"child process `" ++ toString 5
          ++ "` returned non-zero status " ++ toString 1 ++ ": "
          ++ ("unable to read the child process result: " ++ "closed")⟩), []) :=
  (c2_nonzero_exit_reads_channel 5 1 2 (fun _ _ => .ok ()) (by decide)).2.1 "closed"

/-- C3: under `WUNTRACED` a child placed into a job-control stopped state
is observed as `WaitStatus::Stopped`, but `wait_for_child` only handles
`WaitStatus::Signaled(_, SIGSTOP, _)` — termination by `SIGSTOP`, which a
stop never produces — so the observation falls through to the
"unexpected wait event" arm: the supervisor returns an error instead of
stopping itself, never sends `SIGCONT` to the child (empty kill trace),
and does not re-enter its wait loop. -/
theorem c3_stopped_child_unexpected_event :
    wait_for_child (T := Nat) (.error "empty") 2 (fun _ _ => .ok ())
        [.ok (.Stopped 7 .SIGTSTP)]
      = (some (.error ⟨"unexpected wait event happend: Stopped(Pid(7), SIGTSTP)"⟩), [])
    ∧ wait_for_child (T := Nat) (.error "empty") 2 (fun _ _ => .ok ())
        [.ok (.Stopped 7 .SIGSTOP)]
      = (some (.error ⟨"unexpected wait event happend: Stopped(Pid(7), SIGSTOP)"⟩), []) :=
  ⟨rfl, rfl⟩

/-- C5: a guard whose creation reported success remembers its target;
its release attempts exactly one unmount of that target — `Drop::drop`
being the single destructor Rust runs on every exit path — the unmount's
failure is swallowed (the drop returns unit under every unmount-outcome
oracle `os2`, failing ones included), and neither the bind (one mount
call in the trace even on failure) nor the drop is ever retried. -/
theorem c5_guard_releases_exactly_once (os os2 : MntCall → Except Nat Unit)
    (source target : String) (m : Mount)
    (h : (Mount.bind os source target).1 = .ok m) :
    (Mount.bind os source target).2
        = [MntCall.mountCall (some source) target (some "none")
            ["MS_BIND", "MS_PRIVATE", "MS_REC"] none]
    ∧ m.path = target
    ∧ Mount.drop_ os2 m = ((), [MntCall.umountCall target]) := by
  have hdrop : ∀ mm : Mount, Mount.drop_ os2 mm = ((), [MntCall.umountCall mm.path]) := by
    intro mm
    cases hum : os2 (MntCall.umountCall mm.path) <;> simp [Mount.drop_, hum]
  cases hmnt : os (MntCall.mountCall (some source) target (some "none")
      ["MS_BIND", "MS_PRIVATE", "MS_REC"] none) with
  | error e =>
      exfalso
      simp [Mount.bind, Mount.mount_, hmnt] at h
  | ok u =>
      simp only [Mount.bind, Mount.mount_, hmnt] at h
      have hm : m = ⟨target⟩ := by
        cases h
        rfl
      subst hm
      refine ⟨?_, rfl, ?_⟩
      · simp [Mount.bind, Mount.mount_, hmnt]
      · simpa using hdrop ⟨target⟩

/-- C5 witness: a successfully acquired bind guard for target `/tgt`,
released under an unmount oracle that fails — the drop still returns
unit and attempts the single unmount. -/
theorem c5_guard_releases_exactly_once_witness :
    (Mount.bind (fun _ => .ok ()) "/src" "/tgt").2
        = [MntCall.mountCall (some "/src") "/tgt" (some "none")
            ["MS_BIND", "MS_PRIVATE", "MS_REC"] none]
    ∧ (⟨"/tgt"⟩ : Mount).path = "/tgt"
    ∧ Mount.drop_ (fun _ => .error 1) ⟨"/tgt"⟩ = ((), [MntCall.umountCall "/tgt"]) :=
  c5_guard_releases_exactly_once (fun _ => .ok ()) (fun _ => .error 1)
    "/src" "/tgt" ⟨"/tgt"⟩ rfl

/-- Whether an oracle outcome is a success. -/
def exOk : Except String Unit → Bool
  | .ok _ => true
  | .error _ => false

/-- Complete characterization of `runOps`: either every operation's
oracle outcome is a success, the result is `Ok` and the trace is the
whole sequence; or there is a first failing operation, every operation
before it succeeded, the result is `Err` and the trace stops exactly at
the failing operation. -/
theorem runOps_characterize (os : NsOp → Except String Unit) :
    ∀ l : List NsOp,
    ((runOps os l).1 = .ok () ∧ (runOps os l).2 = l
        ∧ ∀ op ∈ l, exOk (os op) = true)
    ∨ (∃ pre op suf, l = pre ++ op :: suf
        ∧ (∀ p ∈ pre, exOk (os p) = true) ∧ exOk (os op) = false
        ∧ (runOps os l).1 = .error () ∧ (runOps os l).2 = pre ++ [op]) := by
  intro l
  induction l with
  | nil => exact Or.inl ⟨rfl, rfl, by simp⟩
  | cons op ops ih =>
      cases hop : os op with
      | error e =>
          refine Or.inr ⟨[], op, ops, rfl, by simp, by simp [exOk, hop], ?_, ?_⟩
          · simp [runOps, hop]
          · simp [runOps, hop]
      | ok u =>
          rcases ih with ⟨h1, h2, h3⟩ | ⟨pre, op', suf, hsplit, hpre, hfail, h1, h2⟩
          · refine Or.inl ⟨?_, ?_, ?_⟩
            · simp [runOps, hop, h1]
            · simp [runOps, hop, h2]
            · intro p hp
              rcases List.mem_cons.mp hp with rfl | hmem
              · simp [exOk, hop]
              · exact h3 p hmem
          · refine Or.inr ⟨op :: pre, op', suf, by simp [hsplit], ?_, hfail, ?_, ?_⟩
            · intro p hp
              rcases List.mem_cons.mp hp with rfl | hmem
              · simp [exOk, hop]
              · exact hpre p hmem
            · simp [runOps, hop, h1]
            · simp [runOps, hop, h2]

/-- Dropping a suffix preserves "no gid-map write before the first
setgroups-deny write". -/
theorem denyBeforeGid_append (l t : List NsOp)
    (h : denyBeforeGid (l ++ t) = true) : denyBeforeGid l = true := by
  induction l with
  | nil => rfl
  | cons op rest ih =>
      simp only [List.cons_append, denyBeforeGid] at h ⊢
      by_cases hd : isSetgroupsDeny op = true
      · simp [hd]
      · rw [if_neg hd, Bool.and_eq_true] at h ⊢
        exact ⟨h.1, ih h.2⟩

/-- The full `setup_namespace` sequence writes no gid map before the
setgroups-deny write. -/
theorem setup_ops_deny_before_gid (root_path : String) (uid gid : Nat) :
    denyBeforeGid (setup_ops root_path uid gid) = true := rfl

/-- The full `setup_namespace` sequence contains exactly one uid-map
write. -/
theorem setup_ops_countP_uid (root_path : String) (uid gid : Nat) :
    (setup_ops root_path uid gid).countP isUidMapWrite = 1 := rfl

/-- The full `setup_namespace` sequence contains exactly one gid-map
write. -/
theorem setup_ops_countP_gid (root_path : String) (uid gid : Nat) :
    (setup_ops root_path uid gid).countP isGidMapWrite = 1 := rfl

/-- Every uid-map write in the sequence is the single-entry mapping of
the real uid to 0. -/
theorem setup_ops_uid_write_content (root_path : String) (uid gid : Nat) :
    ∀ op ∈ setup_ops root_path uid gid, isUidMapWrite op = true →
      op = .writeFile "/proc/self/uid_map" ("0 " ++ toString uid ++ " 1") := by
  intro op hmem hw
  simp only [setup_ops, List.mem_cons, List.not_mem_nil, or_false] at hmem
  rcases hmem with rfl|rfl|rfl|rfl|rfl|rfl|rfl|rfl|rfl|rfl|rfl|rfl|rfl|rfl|rfl|rfl|rfl
  all_goals first | rfl | exact Bool.noConfusion hw

/-- Every gid-map write in the sequence is the single-entry mapping of
the real gid to 0. -/
theorem setup_ops_gid_write_content (root_path : String) (uid gid : Nat) :
    ∀ op ∈ setup_ops root_path uid gid, isGidMapWrite op = true →
      op = .writeFile "/proc/self/gid_map" ("0 " ++ toString gid ++ " 1") := by
  intro op hmem hw
  simp only [setup_ops, List.mem_cons, List.not_mem_nil, or_false] at hmem
  rcases hmem with rfl|rfl|rfl|rfl|rfl|rfl|rfl|rfl|rfl|rfl|rfl|rfl|rfl|rfl|rfl|rfl|rfl
  all_goals first | rfl | exact Bool.noConfusion hw

/-- C6: in every execution of sandbox setup — under every oracle `os`,
i.e. including runs aborted at any stage — no gid-map write ever occurs
before the "deny" write to the setgroups file, at most one uid-map and
one gid-map write occur, every such write is the single-entry mapping of
the real uid (resp. gid) to 0, and in the fully successful execution
exactly one of each is written. -/
theorem c6_setgroups_deny_precedes_gid_map (os : NsOp → Except String Unit)
    (root_path : String) (uid gid : Nat) :
    denyBeforeGid (setup_namespace os root_path uid gid).2 = true
    ∧ (setup_namespace os root_path uid gid).2.countP isUidMapWrite ≤ 1
    ∧ (setup_namespace os root_path uid gid).2.countP isGidMapWrite ≤ 1
    ∧ (∀ op ∈ (setup_namespace os root_path uid gid).2, isUidMapWrite op = true →
        op = .writeFile "/proc/self/uid_map" ("0 " ++ toString uid ++ " 1"))
    ∧ (∀ op ∈ (setup_namespace os root_path uid gid).2, isGidMapWrite op = true →
        op = .writeFile "/proc/self/gid_map" ("0 " ++ toString gid ++ " 1"))
    ∧ (setup_namespace (fun _ => .ok ()) root_path uid gid).2.countP isUidMapWrite = 1
    ∧ (setup_namespace (fun _ => .ok ()) root_path uid gid).2.countP isGidMapWrite = 1 := by
  have hfull : (setup_namespace (fun _ => .ok ()) root_path uid gid).2
      = setup_ops root_path uid gid := by
    rcases runOps_characterize (fun _ => .ok ()) (setup_ops root_path uid gid) with
      ⟨_, h2, _⟩ | ⟨pre, op, suf, _, _, hfail, _, _⟩
    · exact h2
    · exact absurd hfail (by simp [exOk])
  have hpre : ∃ t, setup_ops root_path uid gid
      = (setup_namespace os root_path uid gid).2 ++ t := by
    rcases runOps_characterize os (setup_ops root_path uid gid) with
      ⟨_, h2, _⟩ | ⟨pre, op, suf, hsplit, _, _, _, h2⟩
    · refine ⟨[], ?_⟩
      show setup_ops root_path uid gid
        = (runOps os (setup_ops root_path uid gid)).2 ++ []
      rw [h2, List.append_nil]
    · refine ⟨suf, ?_⟩
      show setup_ops root_path uid gid
        = (runOps os (setup_ops root_path uid gid)).2 ++ suf
      rw [h2, hsplit]
      simp
  rcases hpre with ⟨t, ht⟩
  have hsub : List.Sublist (setup_namespace os root_path uid gid).2
      (setup_ops root_path uid gid) := by
    rw [ht]
    exact List.sublist_append_left _ _
  refine ⟨?_, ?_, ?_, ?_, ?_, ?_, ?_⟩
  · exact denyBeforeGid_append _ t (ht ▸ setup_ops_deny_before_gid root_path uid gid)
  · exact le_trans (hsub.countP_le _) (le_of_eq (setup_ops_countP_uid root_path uid gid))
  · exact le_trans (hsub.countP_le _) (le_of_eq (setup_ops_countP_gid root_path uid gid))
  · intro op hop hw
    exact setup_ops_uid_write_content root_path uid gid op (hsub.subset hop) hw
  · intro op hop hw
    exact setup_ops_gid_write_content root_path uid gid op (hsub.subset hop) hw
  · rw [hfull]
    exact setup_ops_countP_uid root_path uid gid
  · rw [hfull]
    exact setup_ops_countP_gid root_path uid gid

/-- C6 witness: in the fully successful run with real uid 500 and gid
600, the uid-map write present in the trace carries the single-entry
mapping "0 500 1". -/
theorem c6_setgroups_deny_precedes_gid_map_witness :
    NsOp.writeFile "/proc/self/uid_map" "0 500 1"
      = NsOp.writeFile "/proc/self/uid_map" ("0 " ++ toString 500 ++ " 1") :=
  (c6_setgroups_deny_precedes_gid_map (fun _ => .ok ()) "/build" 500 600).2.2.2.1
    (NsOp.writeFile "/proc/self/uid_map" "0 500 1") (by decide) (by decide)

/-- C7: sandbox setup attempts its stages in the one fixed linear order —
unshare the user/mount/pid/uts/ipc namespaces, create `new_root` and
`old_root`, bind-mount the ephemeral root then `/proc`, `/sys`, `/dev`
under `new_root`, chdir to `new_root`, pivot root, chroot to `/`, reset
the working directory, disable setgroups and map identity — the attempted
trace is always a prefix of that order; a fully successful run attempts
exactly that list, and a failing run stops at its first failing stage
(every earlier stage succeeded; no later stage is attempted). -/
theorem c7_fixed_stage_order_abort_on_failure (os : NsOp → Except String Unit)
    (root_path : String) (uid gid : Nat) :
    setup_ops root_path uid gid
      = [ .unshareNs ["CLONE_NEWUSER", "CLONE_NEWNS", "CLONE_NEWPID",
            "CLONE_NEWUTS", "CLONE_NEWIPC"],
          .createDirAll (root_path ++ "/new_root"),
          .createDirAll (root_path ++ "/old_root"),
          .bindMount root_path (root_path ++ "/new_root"),
          .bindMount "/proc" (root_path ++ "/new_root/proc"),
          .bindMount "/sys" (root_path ++ "/new_root/sys"),
          .bindMount "/dev" (root_path ++ "/new_root/dev"),
          .setCurrentDir (root_path ++ "/new_root"),
          .pivotRootOp "." "old_root",
          .chrootOp "/",
          .setCurrentDir "/",
          .createFile "/proc/self/setgroups",
          .writeFile "/proc/self/setgroups" "deny",
          .createFile "/proc/self/uid_map",
          .writeFile "/proc/self/uid_map" ("0 " ++ toString uid ++ " 1"),
          .createFile "/proc/self/gid_map",
          .writeFile "/proc/self/gid_map" ("0 " ++ toString gid ++ " 1") ]
    ∧ (∃ t, setup_ops root_path uid gid
        = (setup_namespace os root_path uid gid).2 ++ t)
    ∧ ((setup_namespace os root_path uid gid).1 = .ok () →
        (setup_namespace os root_path uid gid).2 = setup_ops root_path uid gid)
    ∧ ((setup_namespace os root_path uid gid).1 = .error () →
        ∃ pre op suf, setup_ops root_path uid gid = pre ++ op :: suf
          ∧ (∀ p ∈ pre, exOk (os p) = true) ∧ exOk (os op) = false
          ∧ (setup_namespace os root_path uid gid).2 = pre ++ [op]) := by
  refine ⟨rfl, ?_, ?_, ?_⟩
  · rcases runOps_characterize os (setup_ops root_path uid gid) with
      ⟨_, h2, _⟩ | ⟨pre, op, suf, hsplit, _, _, _, h2⟩
    · refine ⟨[], ?_⟩
      show setup_ops root_path uid gid
        = (runOps os (setup_ops root_path uid gid)).2 ++ []
      rw [h2, List.append_nil]
    · refine ⟨suf, ?_⟩
      show setup_ops root_path uid gid
        = (runOps os (setup_ops root_path uid gid)).2 ++ suf
      rw [h2, hsplit]
      simp
  · intro hok
    rcases runOps_characterize os (setup_ops root_path uid gid) with
      ⟨_, h2, _⟩ | ⟨pre, op, suf, _, _, _, h1, _⟩
    · exact h2
    · rw [show (setup_namespace os root_path uid gid).1
          = (runOps os (setup_ops root_path uid gid)).1 from rfl, h1] at hok
      cases hok
  · intro herr
    rcases runOps_characterize os (setup_ops root_path uid gid) with
      ⟨h1, _, _⟩ | ⟨pre, op, suf, hsplit, hpre2, hfail, _, h2⟩
    · rw [show (setup_namespace os root_path uid gid).1
          = (runOps os (setup_ops root_path uid gid)).1 from rfl, h1] at herr
      cases herr
    · exact ⟨pre, op, suf, hsplit, hpre2, hfail, h2⟩

/-- C7 witness: under an oracle that fails exactly at the `chroot` stage,
setup aborts there — all earlier stages were attempted and succeeded,
the `chroot` is the trace's last element, and the remaining stages were
never attempted. -/
theorem c7_fixed_stage_order_abort_on_failure_witness :
    ∃ pre op suf, setup_ops "/build" 500 600 = pre ++ op :: suf
      ∧ (∀ p ∈ pre,
          exOk ((fun o => match o with
            | NsOp.chrootOp _ => Except.error "boom"
            | _ => Except.ok ()) p) = true)
      ∧ exOk ((fun o => match o with
          | NsOp.chrootOp _ => Except.error "boom"
          | _ => Except.ok ()) op) = false
      ∧ (setup_namespace (fun o => match o with
          | NsOp.chrootOp _ => Except.error "boom"
          | _ => Except.ok ()) "/build" 500 600).2 = pre ++ [op] :=
  (c7_fixed_stage_order_abort_on_failure (fun o => match o with
      | NsOp.chrootOp _ => Except.error "boom"
      | _ => Except.ok ()) "/build" 500 600).2.2.2 rfl

/-- C8: any configuration document that sets both `nix_configuration`
and `nix_configuration_path` is rejected by validation during load —
whatever the other fields hold — and the orchestration performs no build
stage (empty work list): no ephemeral root, download, or sandbox work
begins. -/
theorem c8_both_nix_configurations_rejected (c : Configuration)
    (s p path : String)
    (h1 : c.nix_configuration = some s)
    (h2 : c.nix_configuration_path = some p) :
    Configuration.load (.ok ()) (.ok c) path
      = .error ⟨"Configuration file contains both `nix_configuration`and `nix_configuration_path` options"⟩
    ∧ app_with_config (.ok ()) (.ok c) path
      = .error ⟨"Configuration file contains both `nix_configuration`and `nix_configuration_path` options"⟩ := by
  have hval : c.validate
      = .error ⟨"Configuration file contains both `nix_configuration`and `nix_configuration_path` options"⟩ := by
    unfold Configuration.validate
    rw [h1, h2]
  have hload : Configuration.load (.ok ()) (.ok c) path
      = .error ⟨"Configuration file contains both `nix_configuration`and `nix_configuration_path` options"⟩ := by
    unfold Configuration.load open_config_file parse_config_file
    simp [hval, Bind.bind, Except.bind]
  refine ⟨hload, ?_⟩
  unfold app_with_config
  rw [hload]

/-- C8 witness: the concrete document with inline text "{ }" and path
"/cfg.nix" both present is rejected with the validation error and an
empty work trace. -/
theorem c8_both_nix_configurations_rejected_witness :
    Configuration.load (.ok ())
        (.ok ⟨none, "lxc", some "/cfg.nix", some "{ }"⟩) "/conf.yaml"
      = .error ⟨"Configuration file contains both `nix_configuration`and `nix_configuration_path` options"⟩
    ∧ app_with_config (.ok ())
        (.ok ⟨none, "lxc", some "/cfg.nix", some "{ }"⟩) "/conf.yaml"
      = .error ⟨"Configuration file contains both `nix_configuration`and `nix_configuration_path` options"⟩ :=
  c8_both_nix_configurations_rejected ⟨none, "lxc", some "/cfg.nix", some "{ }"⟩
    "{ }" "/cfg.nix" "/conf.yaml" rfl rfl

/-- C9 counterexample: during a successful build the process-structure of
`App::run` reaches three simultaneously live processes, not at most two:
`App::run` forks a child to run `build_image`, and that child — after
`setup_namespace` — forks a further descendant to run
`run_build_process`, while both ancestors block waiting. -/
theorem c9_two_process_claim_false :
    stepsLive app_run_steps = 3 ∧ ¬ stepsLive app_run_steps ≤ 2 := by
  refine ⟨rfl, by decide⟩

/-- C9 (amended): at most three processes of this program are live
concurrently — the supervising parent, the forked child that enters the
namespace (`build_image`), and the one further child it forks to execute
the build pipeline; the innermost pipeline (`run_build_process`) forks no
further descendant. -/
theorem c9_three_processes :
    stepsLive app_run_steps = 3
    ∧ stepsLive build_image_steps = 2
    ∧ stepsLive run_build_process_steps = 1 :=
  ⟨rfl, rfl, rfl⟩

/-- C10: the artifact-path parsing of `nixos_generate` removes the first
stdout byte unconditionally — whatever byte it is — and removes every
newline byte wherever it occurs, so multi-line output is concatenated
into a single path. -/
theorem c10_skip_first_byte_filter_newlines :
    (∀ (b : Char) (rest : List Char),
        nixos_generate (.ok ⟨b :: rest⟩) = .ok (rest.filter (fun c => c != '\n')))
    ∧ (∀ (s t : List Char), s ≠ [] →
        nixos_generate (.ok ⟨s ++ '\n' :: t⟩)
          = .ok ((s.drop 1).filter (fun c => c != '\n')
              ++ t.filter (fun c => c != '\n'))) := by
  constructor
  · intro b rest
    rfl
  · intro s t hs
    match s, hs with
    | a :: s', _ =>
      show Except.ok ((((a :: s') ++ '\n' :: t).drop 1).filter (fun c => c != '\n')) = _
      simp [List.filter_append]

/-- C10 witness: the first byte 'x' is removed although it is not a path
separator, and the interior newline is removed, concatenating the lines. -/
theorem c10_skip_first_byte_filter_newlines_witness :
    nixos_generate (.ok ⟨['x', 'a'] ++ '\n' :: ['b', '\n', 'c']⟩)
      = .ok ((['x', 'a'].drop 1).filter (fun c => c != '\n')
          ++ ['b', '\n', 'c'].filter (fun c => c != '\n')) :=
  c10_skip_first_byte_filter_newlines.2 ['x', 'a'] ['b', '\n', 'c'] (by decide)

/-- Taking the newline-free portion of a newline-free list followed by
trailing newlines yields exactly that list. -/
theorem takeWhile_append_replicate (k : Nat) :
    ∀ p : List Char, '\n' ∉ p →
      (p ++ List.replicate k '\n').takeWhile (fun c => c != '\n') = p := by
  intro p
  induction p with
  | nil =>
      intro _
      cases k with
      | zero => rfl
      | succ n => simp [List.replicate_succ, List.takeWhile_cons]
  | cons a p' ih =>
      intro h
      have ha : (a != '\n') = true := by
        simp only [bne_iff_ne, ne_eq]
        intro heq
        exact h (heq ▸ List.mem_cons_self a p')
      have h' : '\n' ∉ p' := fun hm => h (List.mem_cons_of_mem a hm)
      simp [List.takeWhile_cons, ha, ih h']

/-- C1 counterexample: for the two-line generator output "/a\n/b\n" the
code parses "a/b" (first byte removed, all newlines removed, lines
concatenated), while the claim's rule — first line with its leading
separator stripped and trailing newline removed — yields "a"; the two
disagree. -/
theorem c1_first_line_claim_false :
    nixos_generate (.ok ⟨['/', 'a', '\n', '/', 'b', '\n']⟩) = .ok ['a', '/', 'b']
    ∧ spec_parse_artifact ['/', 'a', '\n', '/', 'b', '\n'] = ['a']
    ∧ (['a', '/', 'b'] : List Char) ≠ ['a'] :=
  ⟨rfl, rfl, by decide⟩

/-- C1 (amended): for generator output consisting of a single line — a
leading path separator, a newline-free body, then trailing newlines —
the parsed artifact path is the body: exactly the first line with its
leading separator stripped and trailing newlines removed, in agreement
with the spec's stated convention; on other outputs the code removes the
first byte unconditionally and every newline byte. -/
theorem c1_single_line_agreement (p : List Char) (k : Nat) (h : '\n' ∉ p) :
    nixos_generate (.ok ⟨'/' :: p ++ List.replicate k '\n'⟩) = .ok p
    ∧ spec_parse_artifact ('/' :: p ++ List.replicate k '\n') = p := by
  have hfp : p.filter (fun c => c != '\n') = p := by
    apply List.filter_eq_self.mpr
    intro a ha
    simp only [bne_iff_ne, ne_eq]
    exact fun heq => h (heq ▸ ha)
  have hfr : (List.replicate k '\n').filter (fun c => c != '\n') = [] := by
    induction k with
    | zero => rfl
    | succ n ih => simp [List.replicate_succ, ih]
  constructor
  · show Except.ok ((('/' :: p ++ List.replicate k '\n').drop 1).filter
        (fun c => c != '\n')) = Except.ok p
    show Except.ok ((p ++ List.replicate k '\n').filter (fun c => c != '\n'))
      = Except.ok p
    rw [List.filter_append, hfp, hfr, List.append_nil]
  · have htw : ('/' :: p ++ List.replicate k '\n').takeWhile (fun c => c != '\n')
        = '/' :: p := by
      show ('/' :: (p ++ List.replicate k '\n')).takeWhile (fun c => c != '\n')
        = '/' :: p
      rw [List.takeWhile_cons]
      simp only [show (('/' : Char) != '\n') = true from rfl, if_true]
      rw [takeWhile_append_replicate k p h]
    unfold spec_parse_artifact
    rw [htw]
    rfl

/-- C1 witness: the spec's exact fixture — output bytes
"/nix/store/abc-image.tar.gz\n" parse to "nix/store/abc-image.tar.gz",
under both the code's parsing and the first-line convention. -/
theorem c1_single_line_agreement_witness :
    nixos_generate (.ok ⟨'/' :: "nix/store/abc-image.tar.gz".toList
        ++ List.replicate 1 '\n'⟩)
      = .ok "nix/store/abc-image.tar.gz".toList
    ∧ spec_parse_artifact ('/' :: "nix/store/abc-image.tar.gz".toList
        ++ List.replicate 1 '\n')
      = "nix/store/abc-image.tar.gz".toList :=
  c1_single_line_agreement "nix/store/abc-image.tar.gz".toList 1 (by decide)
